import Mathlib

/-!
Verification of the e-challan core (traffic-violation fines, payment
dispatch, challan status transitions, notification fan-out) against its
JavaScript source in `backend/patterns/DesignPatterns.js`,
`backend/patterns/ClassHierarchy.js`, `backend/models/Challan.js` and
`backend/controllers/authController.js`.

Monetary amounts are modelled as rationals (the JS numeric formulas
`500 * 1.5`, `amount * 0.029`, `amount * 0.015` are exact decimal
computations at the magnitudes involved).  Randomly generated
transaction ids are modelled by fixed method-prefixed tokens; no
property below depends on their value.
-/

namespace EChallan

abbrev Money := ℚ

/-- JS `String.prototype.toLowerCase()` on the ASCII type names used
by the factory, modelled character-wise. -/
def jsToLower (s : String) : String :=
  ⟨s.data.map Char.toLower⟩

/-- JS `String.prototype.includes('@')` for the single-character
needle used by the UPI validator: the character occurs in the
string. -/
def jsIncludesChar (s : String) (c : Char) : Bool :=
  s.data.contains c

/-- Challan status enum from `backend/models/Challan.js`
(`enum: ['pending', 'paid', 'disputed', 'cancelled']`). -/
inductive ChallanStatus
  | pending
  | paid
  | disputed
  | cancelled
deriving DecidableEq, Repr

/-! ## Violation fine calculation (`ClassHierarchy.js`) -/

/-- `SpeedingViolation.calculateFine`: base 500, doubled when the speed
difference exceeds 20, multiplied by 1.5 when it exceeds 10. -/
def speedingCalculateFine (speedLimit actualSpeed : Int) : Money :=
  let speedDifference := actualSpeed - speedLimit
  let baseFine : Money := 500
  if speedDifference > 20 then baseFine * 2
  else if speedDifference > 10 then baseFine * (3 / 2)
  else baseFine

/-- `ParkingViolation.calculateFine`: zone-based fine map with JS
`fineMap[this.zoneType] || 200` default, times 1.5 past 120 minutes. -/
def parkingCalculateFine (zoneType : String) (duration : Int) : Money :=
  let baseFine : Money :=
    if zoneType = "no-parking" then 200
    else if zoneType = "handicap" then 1000
    else if zoneType = "fire-lane" then 1500
    else if zoneType = "expired-meter" then 100
    else 200
  if duration > 120 then baseFine * (3 / 2) else baseFine

/-- JS falsy-default `violationData.passengerCount || 1` in the
`HelmetViolation` constructor: absent (`undefined`/`null`, modelled as
`none`) and `0` both fall back to `1`. -/
def helmetPassengerCountDefault (passengerCount : Option Int) : Int :=
  match passengerCount with
  | none => 1
  | some n => if n = 0 then 1 else n

/-- `HelmetViolation.calculateFine`: 300 multiplied by the passenger
count stored by the constructor. -/
def helmetCalculateFine (passengerCount : Int) : Money :=
  (300 : Money) * (passengerCount : Money)

/-- `EChallanFacade.createChallan` persists
`passengerCount: violationData.passengerCount || 1`
(`DesignPatterns.js` line 889): the same falsy default of 1. -/
def createChallanPassengerCount (passengerCount : Option Int) : Int :=
  match passengerCount with
  | none => 1
  | some n => if n = 0 then 1 else n

/-- `RedLightViolation.calculateFine`: base 1000, times 1.5 when
`timeAfterRed > 3`. -/
def redLightCalculateFine (timeAfterRed : Int) : Money :=
  let baseFine : Money := 1000
  if timeAfterRed > 3 then baseFine * (3 / 2) else baseFine

/-- `MobileUsageViolation.calculateFine`: fixed 1000. -/
def mobileUsageCalculateFine : Money := 1000

/-- `GenericViolation.calculateFine`: JS `this.customFine || 500`,
so an absent or zero custom fine falls back to 500. -/
def genericCalculateFine (customFine : Option Money) : Money :=
  match customFine with
  | none => 500
  | some f => if f = 0 then 500 else f

/-- The concrete violation classes of `ClassHierarchy.js`, each with
the fields its `calculateFine` reads (the `HelmetViolation`
constructor stores the passenger count after its `|| 1` default). -/
inductive ViolationInst
  | speeding (speedLimit actualSpeed : Int)
  | parking (zoneType : String) (duration : Int)
  | helmet (passengerCount : Int)
  | redLight (timeAfterRed : Int)
  | mobileUsage
  | generic (customFine : Option Money)
deriving DecidableEq, Repr

/-- Polymorphic `calculateFine` over the violation classes. -/
def calculateFine : ViolationInst → Money
  | .speeding l s => speedingCalculateFine l s
  | .parking z d => parkingCalculateFine z d
  | .helmet pc => helmetCalculateFine pc
  | .redLight t => redLightCalculateFine t
  | .mobileUsage => mobileUsageCalculateFine
  | .generic cf => genericCalculateFine cf

/-- Polymorphic `getViolationType` labels. -/
def getViolationType : ViolationInst → String
  | .speeding _ _ => "Speeding"
  | .parking _ _ => "Wrong Parking"
  | .helmet _ => "No Helmet"
  | .redLight _ => "Red Light"
  | .mobileUsage => "Mobile Phone Usage"
  | .generic _ => "Other"

/-- The attributes `ViolationFactory.createViolation` destructures from
`violationData` (well-formed inputs: numeric fields present where the
chosen variant reads them). -/
structure ViolationData where
  violationType : String
  speedLimit : Int
  actualSpeed : Int
  zoneType : String
  duration : Int
  passengerCount : Option Int
  timeAfterRed : Int
  customFine : Option Money
deriving Repr

/-- `ViolationFactory.createViolation` (`DesignPatterns.js` lines 16-33):
switch on `violationType.toLowerCase()` recognising only
`speeding`, `wrong parking`/`parking`, `no helmet`/`helmet` and
`red light`; every other kind throws `Unknown violation type`. -/
def createViolation (vd : ViolationData) : Except String ViolationInst :=
  let t := jsToLower vd.violationType
  if t = "speeding" then
    .ok (.speeding vd.speedLimit vd.actualSpeed)
  else if t = "wrong parking" then
    .ok (.parking vd.zoneType vd.duration)
  else if t = "parking" then
    .ok (.parking vd.zoneType vd.duration)
  else if t = "no helmet" then
    .ok (.helmet (helmetPassengerCountDefault vd.passengerCount))
  else if t = "helmet" then
    .ok (.helmet (helmetPassengerCountDefault vd.passengerCount))
  else if t = "red light" then
    .ok (.redLight vd.timeAfterRed)
  else
    .error ("Unknown violation type: " ++ vd.violationType)

/-! ## Payment strategies (`DesignPatterns.js` strategy pattern) -/

/-- The fields the payment strategies destructure from
`paymentDetails`; `none` models an absent (`undefined`) field. -/
structure PaymentDetails where
  cardNumber : Option String
  cvv : Option String
  holderName : Option String
  pin : Option String
  upiId : Option String
deriving DecidableEq, Repr

/-- Result object returned by each strategy's `processPayment`;
the `amount` field holds the computed `totalAmount = amount + fee`. -/
structure PaymentResult where
  transactionId : String
  amount : Money
  fee : Money
  paymentMethod : String
  gateway : String
deriving DecidableEq, Repr

/-- `CreditCardPaymentStrategy.getTransactionFee`:
`Math.max(amount * 0.029, 10)`. -/
def creditCardGetTransactionFee (amount : Money) : Money :=
  max (amount * (29 / 1000)) 10

/-- `DebitCardPaymentStrategy.getTransactionFee`:
`Math.min(amount * 0.015, 25)`. -/
def debitCardGetTransactionFee (amount : Money) : Money :=
  min (amount * (15 / 1000)) 25

/-- `UPIPaymentStrategy.getTransactionFee`: always 0. -/
def upiGetTransactionFee (_amount : Money) : Money := 0

/-- `CreditCardPaymentStrategy.validatePaymentDetails`: card number
present with length ≥ 16, CVV present with length ≥ 3, holder name
present (JS falsy check: an absent or empty string fails). -/
def validateCreditCardDetails (d : PaymentDetails) : Except String Unit :=
  match d.cardNumber with
  | none => .error "Invalid card number"
  | some cn =>
    if cn.length < 16 then .error "Invalid card number"
    else match d.cvv with
      | none => .error "Invalid CVV"
      | some cv =>
        if cv.length < 3 then .error "Invalid CVV"
        else match d.holderName with
          | none => .error "Card holder name required"
          | some hn =>
            if hn = "" then .error "Card holder name required"
            else .ok ()

/-- `DebitCardPaymentStrategy.validatePaymentDetails`: card number
present with length ≥ 16 and a 4-character PIN. -/
def validateDebitCardDetails (d : PaymentDetails) : Except String Unit :=
  match d.cardNumber with
  | none => .error "Invalid card number"
  | some cn =>
    if cn.length < 16 then .error "Invalid card number"
    else match d.pin with
      | none => .error "Invalid PIN"
      | some p =>
        if p.length ≠ 4 then .error "Invalid PIN"
        else .ok ()

/-- `UPIPaymentStrategy.validatePaymentDetails`: UPI id containing
`@` and a 4-character PIN. -/
def validateUPIDetails (d : PaymentDetails) : Except String Unit :=
  match d.upiId with
  | none => .error "Invalid UPI ID"
  | some u =>
    if ¬ (jsIncludesChar u '@') then .error "Invalid UPI ID"
    else match d.pin with
      | none => .error "Invalid UPI PIN"
      | some p =>
        if p.length ≠ 4 then .error "Invalid UPI PIN"
        else .ok ()

/-- `CreditCardPaymentStrategy.processPayment`: validate, compute fee,
return `totalAmount = amount + fee` with gateway `stripe`. -/
def creditCardProcessPayment (amount : Money) (d : PaymentDetails) :
    Except String PaymentResult :=
  match validateCreditCardDetails d with
  | .error e => .error e
  | .ok _ =>
    let fee := creditCardGetTransactionFee amount
    .ok ⟨"CC_txn", amount + fee, fee, "credit_card", "stripe"⟩

/-- `DebitCardPaymentStrategy.processPayment`, gateway `razorpay`. -/
def debitCardProcessPayment (amount : Money) (d : PaymentDetails) :
    Except String PaymentResult :=
  match validateDebitCardDetails d with
  | .error e => .error e
  | .ok _ =>
    let fee := debitCardGetTransactionFee amount
    .ok ⟨"DC_txn", amount + fee, fee, "debit_card", "razorpay"⟩

/-- `UPIPaymentStrategy.processPayment`, gateway `payu`. -/
def upiProcessPayment (amount : Money) (d : PaymentDetails) :
    Except String PaymentResult :=
  match validateUPIDetails d with
  | .error e => .error e
  | .ok _ =>
    let fee := upiGetTransactionFee amount
    .ok ⟨"UPI_txn", amount + fee, fee, "upi", "payu"⟩

/-- `PaymentProcessor.processPayment` (`DesignPatterns.js` lines
199-217): dispatch on the method string; any unrecognised method
throws `Unsupported payment method`. -/
def processorProcessPayment (amount : Money) (d : PaymentDetails)
    (method : String) : Except String PaymentResult :=
  if method = "credit_card" then creditCardProcessPayment amount d
  else if method = "debit_card" then debitCardProcessPayment amount d
  else if method = "upi" then upiProcessPayment amount d
  else .error ("Unsupported payment method: " ++ method)

/-! ## Notification fan-out (`ChallanNotificationSubject`) -/

/-- A registered observer: an id and an `update` handler that may
throw (`Except.error`). -/
structure Observer where
  id : Nat
  update : String → Except String Unit

/-- `ChallanNotificationSubject.notifyObservers` (`DesignPatterns.js`
lines 243-251): `forEach` over the registered observers in order,
each call wrapped in `try { observer.update(event, data) } catch`,
so an observer's throw is swallowed and iteration continues.  Returns
the ids invoked (in invocation order) and the caught error messages;
the plain (non-`Except`) return type reflects that `notifyObservers`
itself never throws. -/
def notifyObservers : List Observer → String → List Nat × List String
  | [], _ => ([], [])
  | o :: rest, e =>
    let r := notifyObservers rest e
    match o.update e with
    | .ok _ => (o.id :: r.1, r.2)
    | .error m => (o.id :: r.1, m :: r.2)

/-! ## Orchestration facade (`EChallanFacade.processPayment`) -/

/-- The challan fields `EChallanFacade.processPayment` reads and
writes (`backend/models/Challan.js` document). -/
structure ChallanRec where
  id : Nat
  citizenId : Nat
  fineAmount : Money
  status : ChallanStatus
  paymentDate : Option Nat
deriving DecidableEq, Repr

/-- The `Payment` document the facade persists on a successful
dispatch (`DesignPatterns.js` lines 962-977). -/
structure PaymentRec where
  transactionId : String
  challanId : Nat
  citizenId : Nat
  amount : Money
  fee : Money
  totalAmount : Money
  paymentMethod : String
  gateway : String
  status : String
deriving DecidableEq, Repr

/-- Persistent state visible to the facade: known user ids, challan
documents, payment documents, and the names of the notification
events published so far. -/
structure FacadeState where
  users : List Nat
  challans : List ChallanRec
  payments : List PaymentRec
  events : List String
deriving DecidableEq, Repr

/-- `paymentData` argument of the facade: `{ method, details }`. -/
structure PaymentData where
  method : String
  details : PaymentDetails
deriving DecidableEq, Repr

/-- The facade's `{success, error}` result envelope. -/
structure OpResult where
  success : Bool
  error : Option String
deriving DecidableEq, Repr

/-- `Challan.findById`, modelled as lookup by id. -/
def findChallan (cs : List ChallanRec) (challanId : Nat) : Option ChallanRec :=
  cs.find? (fun c => c.id == challanId)

/-- `EChallanFacade.processPayment` (`DesignPatterns.js` lines
928-1010): validate citizen, load challan, check ownership, reject
when `challan.status === 'paid'`, dispatch the payment strategy, and
on success persist the `Payment` record, set the challan `paid` with
a payment date, and publish `payment_received`.  Every thrown error
is caught by the surrounding `try` and resolved into
`{success:false, error}` with no state change. -/
def facadeProcessPayment (st : FacadeState) (citizenId challanId : Nat)
    (pd : PaymentData) (now : Nat) : OpResult × FacadeState :=
  if st.users.contains citizenId then
    match findChallan st.challans challanId with
    | none => (⟨false, some "Challan not found"⟩, st)
    | some challan =>
      if challan.citizenId ≠ citizenId then
        (⟨false, some "Unauthorized access to challan"⟩, st)
      else if challan.status = .paid then
        (⟨false, some "Challan already paid"⟩, st)
      else
        match processorProcessPayment challan.fineAmount pd.details pd.method with
        | .error e => (⟨false, some e⟩, st)
        | .ok pr =>
          let payment : PaymentRec :=
            ⟨pr.transactionId, challanId, citizenId, challan.fineAmount,
             pr.fee, pr.amount, pd.method, pr.gateway, "completed"⟩
          let challans := st.challans.map (fun c =>
            if c.id == challanId then
              { c with status := .paid, paymentDate := some now }
            else c)
          (⟨true, none⟩,
           ⟨st.users, challans, st.payments ++ [payment],
            st.events ++ ["payment_received"]⟩)
  else
    (⟨false, some "Citizen not found"⟩, st)

/-! ## The read-then-write race inside `processPayment`

The facade `await`s between reading the challan (and checking
`status !== 'paid'`) and writing `status = 'paid'`.  The two phases
are modelled separately so that an interleaving of two concurrent
calls (both reads before either write) can be expressed. -/

/-- The guard phase of `EChallanFacade.processPayment`: the checks a
call performs against the state it read, before any write. -/
def processPaymentCheck (st : FacadeState) (citizenId challanId : Nat) : Bool :=
  st.users.contains citizenId &&
    match findChallan st.challans challanId with
    | none => false
    | some challan =>
      challan.citizenId == citizenId && !(challan.status == .paid)

/-- The write phase of `EChallanFacade.processPayment`: strategy
dispatch followed by the payment insert, the challan status write and
the notification, applied to whatever state the store holds when the
call resumes. -/
def processPaymentCommit (st : FacadeState) (citizenId challanId : Nat)
    (pd : PaymentData) (now : Nat) : OpResult × FacadeState :=
  match findChallan st.challans challanId with
  | none => (⟨false, some "Challan not found"⟩, st)
  | some challan =>
    match processorProcessPayment challan.fineAmount pd.details pd.method with
    | .error e => (⟨false, some e⟩, st)
    | .ok pr =>
      let payment : PaymentRec :=
        ⟨pr.transactionId, challanId, citizenId, challan.fineAmount,
         pr.fee, pr.amount, pd.method, pr.gateway, "completed"⟩
      let challans := st.challans.map (fun c =>
        if c.id == challanId then
          { c with status := .paid, paymentDate := some now }
        else c)
      (⟨true, none⟩,
       ⟨st.users, challans, st.payments ++ [payment],
        st.events ++ ["payment_received"]⟩)

/-! ## Citizen dispute update (`authController.js`) -/

/-- The update fields `CitizenUpdateStrategy.processUpdate` may emit. -/
structure UpdateFields where
  disputeReason : Option String
  status : Option ChallanStatus
deriving DecidableEq, Repr

/-- `CitizenUpdateStrategy.processUpdate` (`authController.js` lines
657-668): sets `status = 'disputed'` (with the reason) only when a
dispute reason is supplied (JS truthy: present and non-empty) and the
existing challan is still `pending`; otherwise no field is updated. -/
def citizenProcessUpdate (disputeReason : Option String)
    (existingChallan : ChallanRec) : UpdateFields :=
  match disputeReason with
  | some r =>
    if r ≠ "" ∧ existingChallan.status = .pending then
      ⟨some r, some .disputed⟩
    else ⟨none, none⟩
  | none => ⟨none, none⟩

/-! ## Theorems -/

/-- C4 -/
theorem speeding_fine_rule (speedLimit actualSpeed : Int) :
    (actualSpeed - speedLimit > 20 →
      speedingCalculateFine speedLimit actualSpeed = 1000) ∧
    (10 < actualSpeed - speedLimit ∧ actualSpeed - speedLimit ≤ 20 →
      speedingCalculateFine speedLimit actualSpeed = 750) ∧
    (actualSpeed - speedLimit ≤ 10 →
      speedingCalculateFine speedLimit actualSpeed = 500) ∧
    speedingCalculateFine 50 80 = 1000 ∧
    speedingCalculateFine 50 58 = 500 := by
  refine ⟨?_, ?_, ?_, by norm_num [speedingCalculateFine], by norm_num [speedingCalculateFine]⟩
  · intro h
    simp only [speedingCalculateFine]
    rw [if_pos h]
    norm_num
  · rintro ⟨h1, h2⟩
    simp only [speedingCalculateFine]
    rw [if_neg (by omega), if_pos h1]
    norm_num
  · intro h
    simp only [speedingCalculateFine]
    rw [if_neg (by omega), if_neg (by omega)]

theorem speeding_fine_rule_w :
    speedingCalculateFine 50 80 = 1000 ∧
    speedingCalculateFine 50 65 = 750 ∧
    speedingCalculateFine 50 58 = 500 :=
  ⟨(speeding_fine_rule 50 80).1 (by norm_num),
   (speeding_fine_rule 50 65).2.1 (by norm_num),
   (speeding_fine_rule 50 58).2.2.1 (by norm_num)⟩

/-- C9 -/
theorem speeding_fine_monotone (speedLimit s s' : Int) (h : s ≤ s') :
    speedingCalculateFine speedLimit s ≤ speedingCalculateFine speedLimit s' ∧
    (speedingCalculateFine speedLimit s = 500 ∨
     speedingCalculateFine speedLimit s = 750 ∨
     speedingCalculateFine speedLimit s = 1000) ∧
    (s < speedLimit → speedingCalculateFine speedLimit s = 500) := by
  refine ⟨?_, ?_, ?_⟩
  · simp only [speedingCalculateFine]
    split_ifs <;> first | (exfalso; omega) | norm_num
  · simp only [speedingCalculateFine]
    split_ifs <;> norm_num
  · intro hlt
    simp only [speedingCalculateFine]
    rw [if_neg (by omega), if_neg (by omega)]

theorem speeding_fine_monotone_w :
    speedingCalculateFine 50 40 ≤ speedingCalculateFine 50 80 ∧
    speedingCalculateFine 50 40 = 500 :=
  ⟨(speeding_fine_monotone 50 40 80 (by norm_num)).1,
   (speeding_fine_monotone 50 40 80 (by norm_num)).2.2 (by norm_num)⟩

/-- C2 -/
theorem notify_observers_isolated (observers : List Observer) (e : String) :
    (notifyObservers observers e).1 = observers.map Observer.id ∧
    (notifyObservers observers e).2 = observers.filterMap (fun o =>
      match o.update e with
      | .ok _ => none
      | .error m => some m) := by
  induction observers with
  | nil => exact ⟨rfl, rfl⟩
  | cons o rest ih =>
    simp only [notifyObservers, List.map_cons, List.filterMap_cons]
    cases h : o.update e <;> simp [h, ih.1, ih.2]

/-- C10 -/
theorem helmet_fine_default (pc : Option Int) :
    helmetCalculateFine (helmetPassengerCountDefault none) = 300 ∧
    helmetCalculateFine (helmetPassengerCountDefault (some 0)) = 300 ∧
    helmetCalculateFine (helmetPassengerCountDefault pc) ≠ 0 ∧
    createChallanPassengerCount pc = helmetPassengerCountDefault pc ∧
    createViolation ⟨"Helmet", 0, 0, "", 0, none, 0, none⟩ = .ok (.helmet 1) ∧
    calculateFine (.helmet 1) = 300 := by
  refine ⟨by norm_num [helmetCalculateFine, helmetPassengerCountDefault],
          by norm_num [helmetCalculateFine, helmetPassengerCountDefault],
          ?_, ?_, rfl,
          by norm_num [calculateFine, helmetCalculateFine]⟩
  · cases pc with
    | none =>
      norm_num [helmetCalculateFine, helmetPassengerCountDefault]
    | some n =>
      by_cases h : n = 0
      · subst h
        norm_num [helmetCalculateFine, helmetPassengerCountDefault]
      · simp only [helmetPassengerCountDefault, helmetCalculateFine, if_neg h]
        intro hc
        rcases mul_eq_zero.mp hc with h3 | h3
        · norm_num at h3
        · exact h ((Int.cast_eq_zero).mp h3)
  · cases pc <;> rfl

theorem helmet_fine_default_w :
    helmetCalculateFine (helmetPassengerCountDefault (some 2)) ≠ 0 ∧
    helmetCalculateFine (helmetPassengerCountDefault none) = 300 :=
  ⟨(helmet_fine_default (some 2)).2.2.1, (helmet_fine_default (some 2)).1⟩



theorem creditCard_result_spec (amount : Money) (d : PaymentDetails)
    (r : PaymentResult) (h : creditCardProcessPayment amount d = .ok r) :
    r.amount = amount + r.fee ∧ r.fee = max (amount * (29 / 1000)) 10 := by
  unfold creditCardProcessPayment at h
  cases hv : validateCreditCardDetails d <;> rw [hv] at h
  · cases h
  · injection h with h'
    subst h'
    exact ⟨rfl, rfl⟩

theorem debitCard_result_spec (amount : Money) (d : PaymentDetails)
    (r : PaymentResult) (h : debitCardProcessPayment amount d = .ok r) :
    r.amount = amount + r.fee ∧ r.fee = min (amount * (15 / 1000)) 25 := by
  unfold debitCardProcessPayment at h
  cases hv : validateDebitCardDetails d <;> rw [hv] at h
  · cases h
  · injection h with h'
    subst h'
    exact ⟨rfl, rfl⟩

theorem upi_result_spec (amount : Money) (d : PaymentDetails)
    (r : PaymentResult) (h : upiProcessPayment amount d = .ok r) :
    r.amount = amount + r.fee ∧ r.fee = 0 := by
  unfold upiProcessPayment at h
  cases hv : validateUPIDetails d <;> rw [hv] at h
  · cases h
  · injection h with h'
    subst h'
    exact ⟨rfl, rfl⟩

/-- C5 -/
theorem payment_fee_total_rule (amount : Money) (d : PaymentDetails)
    (method : String) (r : PaymentResult)
    (h : processorProcessPayment amount d method = .ok r) :
    r.amount = amount + r.fee ∧
    (method = "credit_card" → r.fee = max (amount * (29 / 1000)) 10) ∧
    (method = "debit_card" → r.fee = min (amount * (15 / 1000)) 25) ∧
    (method = "upi" → r.fee = 0) := by
  unfold processorProcessPayment at h
  split_ifs at h with h1 h2 h3
  · obtain ⟨ha, hf⟩ := creditCard_result_spec amount d r h
    subst h1
    exact ⟨ha, fun _ => hf, fun hx => absurd hx (by decide),
           fun hx => absurd hx (by decide)⟩
  · obtain ⟨ha, hf⟩ := debitCard_result_spec amount d r h
    subst h2
    exact ⟨ha, fun hx => absurd hx (by decide), fun _ => hf,
           fun hx => absurd hx (by decide)⟩
  · obtain ⟨ha, hf⟩ := upi_result_spec amount d r h
    subst h3
    exact ⟨ha, fun hx => absurd hx (by decide),
           fun hx => absurd hx (by decide), fun _ => hf⟩

def ccSampleDetails : PaymentDetails :=
  ⟨some "4111111111111111", some "123", some "John Doe", none, none⟩

def ccSampleResult : PaymentResult :=
  ⟨"CC_txn", 1000 + max ((1000 : Money) * (29 / 1000)) 10,
   max ((1000 : Money) * (29 / 1000)) 10, "credit_card", "stripe"⟩

theorem payment_fee_total_rule_w :
    processorProcessPayment 1000 ccSampleDetails "credit_card" = .ok ccSampleResult ∧
    ccSampleResult.amount = 1000 + ccSampleResult.fee ∧
    ccSampleResult.fee = max ((1000 : Money) * (29 / 1000)) 10 ∧
    ccSampleResult.fee = 29 := by
  have hd : processorProcessPayment 1000 ccSampleDetails "credit_card"
      = .ok ccSampleResult := rfl
  have h := payment_fee_total_rule 1000 ccSampleDetails "credit_card" ccSampleResult hd
  exact ⟨hd, h.1, h.2.1 rfl, by norm_num [ccSampleResult]⟩

/-- C6 counterexample -/
theorem unsupported_method_counterexample :
    processorProcessPayment 100 ⟨none, none, none, some "1234", some "citizen@upi"⟩
      "net_banking" = .error "Unsupported payment method: net_banking" ∧
    processorProcessPayment 100 ⟨none, none, none, some "1234", some "citizen@upi"⟩
      "cash" = .error "Unsupported payment method: cash" :=
  ⟨rfl, rfl⟩

/-- C6 amended -/
theorem dispatch_failure_no_partial (amount : Money) (d : PaymentDetails)
    (method : String) (st : FacadeState) (citizenId challanId : Nat)
    (pd : PaymentData) (now : Nat) :
    (method ≠ "credit_card" → method ≠ "debit_card" → method ≠ "upi" →
      processorProcessPayment amount d method
        = .error ("Unsupported payment method: " ++ method)) ∧
    ((facadeProcessPayment st citizenId challanId pd now).1.success = false →
      (facadeProcessPayment st citizenId challanId pd now).2 = st) := by
  constructor
  · intro h1 h2 h3
    unfold processorProcessPayment
    rw [if_neg h1, if_neg h2, if_neg h3]
  · intro h
    rcases hfp : facadeProcessPayment st citizenId challanId pd now with ⟨res, st2⟩
    rw [hfp] at h
    simp only [facadeProcessPayment] at hfp
    repeat' split at hfp
    all_goals (injection hfp with hres hst; subst hst; subst hres; simp_all)

theorem dispatch_failure_no_partial_w :
    processorProcessPayment 100 ⟨none, none, none, some "1234", some "citizen@upi"⟩
      "net_banking" = .error "Unsupported payment method: net_banking" ∧
    (facadeProcessPayment ⟨[10], [⟨1, 10, 500, .pending, none⟩], [], []⟩ 10 1
        ⟨"net_banking", ⟨none, none, none, some "1234", some "citizen@upi"⟩⟩ 99).2
      = ⟨[10], [⟨1, 10, 500, .pending, none⟩], [], []⟩ := by
  have h := dispatch_failure_no_partial 100
    ⟨none, none, none, some "1234", some "citizen@upi"⟩ "net_banking"
    ⟨[10], [⟨1, 10, 500, .pending, none⟩], [], []⟩ 10 1
    ⟨"net_banking", ⟨none, none, none, some "1234", some "citizen@upi"⟩⟩ 99
  exact ⟨h.1 (by decide) (by decide) (by decide), h.2 rfl⟩

/-- C7 amended -/
theorem violation_factory_domain (vd : ViolationData) :
    ((createViolation vd).isOk = true ↔
      jsToLower vd.violationType ∈
        ["speeding", "wrong parking", "parking", "no helmet", "helmet", "red light"]) ∧
    (jsToLower vd.violationType ∉
        ["speeding", "wrong parking", "parking", "no helmet", "helmet", "red light"] →
      createViolation vd = .error ("Unknown violation type: " ++ vd.violationType)) := by
  constructor
  · simp only [createViolation]
    split_ifs with h1 h2 h3 h4 h5 h6 <;> simp_all [Except.isOk, Except.toBool, List.mem_cons]
  · intro hmem
    simp only [createViolation]
    split_ifs with h1 h2 h3 h4 h5 h6 <;> simp_all [List.mem_cons]

theorem violation_factory_domain_w :
    createViolation ⟨"Other", 0, 0, "", 0, none, 0, none⟩
      = .error "Unknown violation type: Other" ∧
    (createViolation ⟨"Speeding", 50, 80, "", 0, none, 0, none⟩).isOk = true :=
  ⟨(violation_factory_domain ⟨"Other", 0, 0, "", 0, none, 0, none⟩).2 (by decide),
   (violation_factory_domain ⟨"Speeding", 50, 80, "", 0, none, 0, none⟩).1.mpr
     (by decide)⟩

/-- C7 counterexample -/
theorem mobile_usage_factory_counterexample :
    createViolation ⟨"Mobile Usage", 0, 0, "", 0, none, 0, none⟩
      = .error "Unknown violation type: Mobile Usage" ∧
    calculateFine .mobileUsage = 1000 ∧
    getViolationType .mobileUsage = "Mobile Phone Usage" :=
  ⟨rfl, rfl, rfl⟩



/-- C3 -/
theorem process_payment_replay_rejected (st : FacadeState)
    (citizenId challanId : Nat) (pd : PaymentData) (now : Nat) (c : ChallanRec)
    (hfind : findChallan st.challans challanId = some c)
    (hpaid : c.status = .paid) :
    (facadeProcessPayment st citizenId challanId pd now).1.success = false ∧
    (facadeProcessPayment st citizenId challanId pd now).2 = st := by
  simp only [facadeProcessPayment, hfind]
  by_cases hu : st.users.contains citizenId
  · rw [if_pos hu]
    by_cases hown : c.citizenId ≠ citizenId
    · rw [if_pos hown]
      exact ⟨rfl, rfl⟩
    · rw [if_neg hown, if_pos hpaid]
      exact ⟨rfl, rfl⟩
  · rw [if_neg hu]
    exact ⟨rfl, rfl⟩

def paidState : FacadeState :=
  ⟨[10], [⟨1, 10, 500, .paid, some 5⟩], [], ["payment_received"]⟩

def upiPayData : PaymentData :=
  ⟨"upi", ⟨none, none, none, some "1234", some "citizen@upi"⟩⟩

theorem process_payment_replay_rejected_w :
    (facadeProcessPayment paidState 10 1 upiPayData 99).1.success = false ∧
    (facadeProcessPayment paidState 10 1 upiPayData 99).2 = paidState :=
  process_payment_replay_rejected paidState 10 1 upiPayData 99
    ⟨1, 10, 500, .paid, some 5⟩ rfl rfl

/-- C1 counterexample -/
def disputedState : FacadeState :=
  ⟨[10], [⟨1, 10, 500, .disputed, none⟩], [], []⟩

theorem pay_disputed_challan_counterexample :
    (facadeProcessPayment disputedState 10 1 upiPayData 99).1.success = true ∧
    (facadeProcessPayment disputedState 10 1 upiPayData 99).2.challans.map
      ChallanRec.status = [.paid] ∧
    (facadeProcessPayment disputedState 10 1 upiPayData 99).2.payments.length = 1 ∧
    (facadeProcessPayment disputedState 10 1 upiPayData 99).2.events
      = ["payment_received"] :=
  ⟨rfl, rfl, rfl, rfl⟩

/-- C1 amended -/
theorem payment_accepted_iff_not_paid (st : FacadeState)
    (citizenId challanId : Nat) (pd : PaymentData) (now : Nat) (c : ChallanRec)
    (hfind : findChallan st.challans challanId = some c)
    (huser : st.users.contains citizenId = true)
    (hown : c.citizenId = citizenId) :
    ((facadeProcessPayment st citizenId challanId pd now).1.success = true ↔
      (c.status ≠ .paid ∧
        (processorProcessPayment c.fineAmount pd.details pd.method).isOk = true)) ∧
    (∀ (reason : Option String) (ch : ChallanRec), ch.status = .paid →
      (citizenProcessUpdate reason ch).status = none) := by
  constructor
  · simp only [facadeProcessPayment, hfind, huser, if_true]
    rw [if_neg (by simp [hown])]
    by_cases hp : c.status = .paid
    · rw [if_pos hp]
      simp [hp]
    · rw [if_neg hp]
      cases hd : processorProcessPayment c.fineAmount pd.details pd.method with
      | error e => simp [hp, hd, Except.isOk, Except.toBool]
      | ok pr => simp [hp, hd, Except.isOk, Except.toBool]
  · intro reason ch hch
    cases reason with
    | none => rfl
    | some r =>
      simp only [citizenProcessUpdate]
      rw [if_neg (by simp [hch])]

theorem payment_accepted_iff_not_paid_w :
    (facadeProcessPayment disputedState 10 1 upiPayData 99).1.success = true ∧
    (citizenProcessUpdate (some "radar was broken")
      ⟨1, 10, 500, .paid, some 5⟩).status = none := by
  have h := payment_accepted_iff_not_paid disputedState 10 1 upiPayData 99
    ⟨1, 10, 500, .disputed, none⟩ rfl rfl rfl
  exact ⟨h.1.mpr ⟨by decide, rfl⟩, h.2 (some "radar was broken") _ rfl⟩

/-- C8 -/
def racePendingState : FacadeState :=
  ⟨[10], [⟨1, 10, 500, .pending, none⟩], [], []⟩

theorem concurrent_payment_race_double_charge :
    processPaymentCheck racePendingState 10 1 = true ∧
    facadeProcessPayment racePendingState 10 1 upiPayData 5
      = processPaymentCommit racePendingState 10 1 upiPayData 5 ∧
    (processPaymentCommit racePendingState 10 1 upiPayData 5).1.success = true ∧
    (processPaymentCommit
        (processPaymentCommit racePendingState 10 1 upiPayData 5).2
        10 1 upiPayData 6).1.success = true ∧
    (processPaymentCommit
        (processPaymentCommit racePendingState 10 1 upiPayData 5).2
        10 1 upiPayData 6).2.payments.length = 2 ∧
    (processPaymentCommit
        (processPaymentCommit racePendingState 10 1 upiPayData 5).2
        10 1 upiPayData 6).2.events
      = ["payment_received", "payment_received"] :=
  ⟨rfl, rfl, rfl, rfl, rfl, rfl⟩


end EChallan
